import Mathlib

/-!
Verification of the Jarvis voice-service core (`voice_service.py`) against its
natural-language specification.

Shallow embedding conventions:
* Python `str` is modelled as `List Char` (`Str`); Lean string literals enter
  the model through `chars`.
* Python `float` timestamps are modelled as integers counting milliseconds
  (`Time`), and chunk energies as integers; every use of either in the source
  is a comparison or a subtraction against a constant, which this models
  exactly (second-valued constants become their millisecond values).
* External collaborators (Whisper STT, the Ollama HTTP endpoint, Kokoro TTS,
  the microphone) are inputs of the model: each main-loop iteration carries the
  frame's time, its energy, the transcript the STT engine would return for the
  accumulated buffer, and the outcome of the LLM HTTP call.
* Side effects (JSON messages on stdout, buffers handed to the transcriber,
  HTTP requests, TTS playback) are collected as explicit output lists.
-/

/-- Python `str` is modelled as a list of characters. -/
abbrev Str := List Char

/-- Injection of Lean string literals into the model. -/
def chars (s : String) : Str := s.data

namespace Jarvis

/-- ASCII lower-casing, modelling Python `str.lower` on the ASCII inputs the
service manipulates. -/
def lowerChars (s : Str) : Str := s.map Char.toLower

/-- The whitespace class of Python `str.strip` and of the regex class `\s`
(ASCII part). -/
def isPySpace (c : Char) : Bool :=
  c = ' ' || c = '\t' || c = '\n' || c = '\x0d' || c = '\x0b' || c = '\x0c'

/-- Python `str.strip()`: drop leading and trailing whitespace. -/
def pyStrip (s : Str) : Str :=
  ((s.dropWhile isPySpace).reverse.dropWhile isPySpace).reverse

/-- Does `s` start with `pat`, comparing characters case-insensitively
(ASCII), as Python `re` does under `re.IGNORECASE`? -/
def startsWithCI : Str → Str → Bool
  | _, [] => true
  | [], _ :: _ => false
  | c :: cs, d :: ds => (c.toLower = d.toLower) && startsWithCI cs ds

/-- Index of the first case-insensitive occurrence of `pat` in `s`, as found
by `re.search` with a literal pattern under `re.IGNORECASE`. -/
def findMarker (pat : Str) : Str → Option Nat
  | [] => if startsWithCI [] pat then some 0 else none
  | c :: cs =>
    if startsWithCI (c :: cs) pat then some 0
    else (findMarker pat cs).map (· + 1)

/-- Is `pat` a (case-sensitive) substring of `s`?  Models Python `in`. -/
def containsSub (s pat : Str) : Bool :=
  match s with
  | [] => pat.isEmpty
  | c :: cs => startsWith (c :: cs) pat || containsSub cs pat
where
  /-- Case-sensitive prefix test. -/
  startsWith : Str → Str → Bool
  | _, [] => true
  | [], _ :: _ => false
  | c :: cs, d :: ds => (c = d) && startsWith cs ds

/-- The literal `[ANSWER]` marker of the dual-output format. -/
def ANSWER_MARK : Str := chars "[ANSWER]"

/-- The literal `[INSTRUCTION]` marker of the dual-output format. -/
def INSTRUCTION_MARK : Str := chars "[INSTRUCTION]"

/-- Embedding of `VoiceService._parse_dual_output` (voice_service.py:250-269).

The source extracts the answer with
`re.search(r'\[ANSWER\]\s*(.*?)(?=\[INSTRUCTION\]|$)', content, DOTALL|IGNORECASE)`
and the instruction with
`re.search(r'\[INSTRUCTION\]\s*(.*?)$', content, DOTALL|IGNORECASE)`,
then strips each captured group.  Because the lazy group stops at the first
position where the lookahead succeeds, the stripped group equals the stripped
text between the first marker occurrence and the first following
`[INSTRUCTION]` occurrence (answer) or the end of the string (both); the
greedy `\s*` after the marker and the `$`-before-a-final-newline subtlety are
both absorbed by the final `.strip()`.  If both captures are empty the whole
stripped content becomes the answer. -/
def parse_dual_output (content : Str) : Str × Str :=
  let answer_text :=
    match findMarker ANSWER_MARK content with
    | none => []
    | some i =>
      let rest := content.drop (i + ANSWER_MARK.length)
      match findMarker INSTRUCTION_MARK rest with
      | none => pyStrip rest
      | some j => pyStrip (rest.take j)
  let instruction_text :=
    match findMarker INSTRUCTION_MARK content with
    | none => []
    | some i => pyStrip (content.drop (i + INSTRUCTION_MARK.length))
  if answer_text = [] ∧ instruction_text = [] then
    (pyStrip content, instruction_text)
  else
    (answer_text, instruction_text)

/-- One conversation record `{"role": ..., "content": ...}` of
`self.conversation_turns`. -/
structure Rec where
  role : Str
  content : Str
deriving DecidableEq, Repr

/-- Timestamps (`time.time()` values), in milliseconds. -/
abbrev Time := ℤ

/-- `self.max_turns = 8` (voice_service.py:81). -/
def max_turns : Nat := 8

/-- `self.context_timeout = 120` seconds (voice_service.py:83), in the
model's millisecond time unit. -/
def context_timeout : Time := 120 * 1000

/-- Outbound JSON messages produced by `send_message` (one constructor per
`type` the service emits on the paths modelled here). -/
inductive Event where
  | userSpeaking
  | transcriptionEv (text : Str)
  | jarvisSpeaking (text : Str)
  | conversationTurn (user_text jarvis_response : Str)
  | listeningEv
  | instructionDetected (instruction : Str)
  | errorEv (message : Str)
  | debugEv (message : Str)
  | mutedEv
  | unmutedEv
deriving DecidableEq, Repr

/-- Embedding of `VoiceService.add_conversation_turn` (voice_service.py:173-180):
append the record, `pop(0)` once if the length now exceeds `max_turns`, and
update `last_activity_time` to the current time.  Returns the new record list
and the new `last_activity_time`. -/
def add_conversation_turn (turns : List Rec) (role content : Str) (now : Time) :
    List Rec × Time :=
  let t := turns ++ [⟨role, content⟩]
  (if t.length > max_turns then t.drop 1 else t, now)

/-- Result of `VoiceService.check_context_timeout`: the updated record list
and activity timestamp, the messages sent, and the value the Python method
returns (it has no `return` statement, so it always returns `None`, modelled
as `Unit`). -/
structure CtxCheckOut where
  conversation_turns : List Rec
  last_activity_time : Time
  events : List Event
  ret : Unit
deriving DecidableEq, Repr

/-- Embedding of `VoiceService.check_context_timeout` (voice_service.py:182-187):
if the history is non-empty (Python truthiness) and `now - last_activity_time`
exceeds `context_timeout`, emit a debug message, clear the history and reset
the timestamp; otherwise do nothing.  The method body has no `return`, so the
returned value is always `None`. -/
def check_context_timeout (turns : List Rec) (last now : Time) : CtxCheckOut :=
  if turns ≠ [] ∧ now - last > context_timeout then
    ⟨[], now,
     [Event.debugEv (chars "Auto-resetting context after 2 minutes of inactivity")], ()⟩
  else
    ⟨turns, last, [], ()⟩

/-- Embedding of `VoiceService._fallback_response` (voice_service.py:271-288):
pattern-based reply used when the LLM is unavailable. -/
def _fallback_response (user_input : Str) : Str :=
  let lower := lowerChars user_input
  if containsSub lower (chars "hello") || containsSub lower (chars "hi")
      || containsSub lower (chars "hey") then
    chars "Hello!"
  else if containsSub lower (chars "let\x27s") || containsSub lower (chars "please")
      || containsSub lower (chars "can you") || containsSub lower (chars "could you") then
    chars "I\x27ll work on that."
  else if user_input.contains '?' then
    chars "Let me think about that."
  else
    chars "I\x27m listening."

/-- `self.system_prompt` (voice_service.py:95-162), verbatim. -/
def system_prompt : Str := chars "You are Jarvis, a British coding assistant. You respond in TWO parts:

[ANSWER] - What you SAY to the user (MAX 3 SENTENCES, brief and conversational)
[INSTRUCTION] - What to send to the code agent (high-level only)

CRITICAL RULES:
1. Always include [ANSWER]
2. [ANSWER] must be 3 sentences or fewer (unless reading MCP completion reports)
3. Include [INSTRUCTION] for ANY action request - not just file changes
4. If user says DO something (push, commit, deploy, install, run, etc.) → send [INSTRUCTION]
5. If user asks HOW/WHAT/WHY → respond with [ANSWER] only, no [INSTRUCTION]
6. [INSTRUCTION] should be concise and high-level
7. Trust the code agent to figure out implementation details

ACTION PHRASES (always send [INSTRUCTION]):
- \"push to github\" / \"commit\" / \"deploy\"
- \"install\" / \"run\" / \"build\" / \"test\"
- \"add\" / \"remove\" / \"delete\" / \"update\"
- \"create\" / \"make\" / \"set up\" / \"fix\"

FOLLOW-UP AFFIRMATIONS (treat as action commands):
- If you JUST asked \"Would you like me to X?\" and user says \"yes\"/\"yeah\"/\"please do\"/\"go ahead\"/\"sure\" → send [INSTRUCTION] to do X
- Check conversation history for your recent question
- The affirmation means they want you to proceed with the action you suggested

CODEBASE ANALYSIS:
- If user asks to understand/analyze/explain how code works → send [INSTRUCTION]
- Ask Cascade to call the jarvis-voice-summary MCP save command
- This gives a machine-readable summary of the codebase for deeper analysis

Examples:

User: \"I want to make a hello world app\"
[ANSWER] Right, I\x27ll get that started.
[INSTRUCTION] Create a hello world application

User: \"Push this to GitHub with commit message \x27Jarvis first project\x27\"
[ANSWER] Sure thing, I\x27ll push that now.
[INSTRUCTION] Push to GitHub with commit message \"Jarvis first project\"

User: \"Delete the hello world file\"
[ANSWER] I\x27ll remove that.
[INSTRUCTION] Delete the hello world file

User: \"How do I push to GitHub?\"
[ANSWER] You\x27d use git add, git commit, and git push. Want me to do it for you?

User: \"Let\x27s build a Next.js dashboard\"
[ANSWER] Got it, setting up the dashboard.
[INSTRUCTION] Create a generic Next.js dashboard with navigation and basic layout

User: \"Fix the authentication bug\"
[ANSWER] I\x27ll sort that out now.
[INSTRUCTION] Fix the authentication bug

User: \"How\x27s it going?\"
[ANSWER] All good! What can I help with?

User: \"Look into how the voice service works\"
[ANSWER] I\x27ll analyze that for you.
[INSTRUCTION] Use the jarvis-voice-summary MCP save command to analyze the voice service codebase and explain how it works

Jarvis: \"Would you like me to make the sidebar functional with actual routing?\"
User: \"Yeah, please do.\"
[ANSWER] Right, I\x27ll add that now.
[INSTRUCTION] Make the sidebar functional with actual routing

Keep [ANSWER] SHORT and natural. No explanations, tutorials, or step-by-step instructions in [ANSWER]."

/-- `self.ollama_url` with its default configuration value
(voice_service.py:53, 671). -/
def ollama_url : Str := chars "http://localhost:11434"

/-- Python `self.conversation_turns[-8:]` (voice_service.py:195): the last 8
records, or all of them when fewer. -/
def takeLast8 (l : List Rec) : List Rec := l.drop (l.length - 8)

/-- The message list `generate_fast_response` builds before the HTTP call
(voice_service.py:194-196): system prompt, then the last 8 stored records,
then the new user message. -/
def buildMessages (turns : List Rec) (user_input : Str) : List Rec :=
  ⟨chars "system", system_prompt⟩ :: takeLast8 turns ++ [⟨chars "user", user_input⟩]

/-- Outcome of the `requests.post` call to the Ollama endpoint, as observed by
`generate_fast_response`.  `httpResponse status content` carries the HTTP
status and the value of `result.get(\x7bmessage\x7d).get(\x7bcontent\x7d, \"\")`
extracted from the response body; a body that fails to parse as JSON raises
and falls under `otherFailure`. -/
inductive LLMResult where
  | timeout
  | connectionError
  | otherFailure (message : Str)
  | httpResponse (status : Nat) (content : Str)
deriving DecidableEq, Repr

/-- Result of `generate_fast_response`: the message list of the attempted HTTP
request, the returned spoken answer, and the messages sent on stdout along the
way. -/
structure GenOut where
  request : List Rec
  answer : Str
  events : List Event
deriving DecidableEq, Repr

/-- Embedding of `VoiceService.generate_fast_response` (voice_service.py:189-248).
The messages built for the request are recorded; each failure mode degrades to
`_fallback_response`; on a 200 response the stripped content is parsed by
`parse_dual_output`, an `instruction_detected` message is sent when the
instruction channel is non-empty, and the answer falls back when empty. -/
def generate_fast_response (turns : List Rec) (user_input : Str) (llm : LLMResult) :
    GenOut :=
  let dbg1 := Event.debugEv (chars "Generating LLM response for: " ++ user_input.take 50)
  let dbg2 := Event.debugEv (chars "Calling Ollama at " ++ ollama_url ++ chars "...")
  let msgs := buildMessages turns user_input
  match llm with
  | .timeout =>
    ⟨msgs, _fallback_response user_input,
     [dbg1, dbg2, Event.errorEv (chars "LLM timeout - Ollama may be slow or not running")]⟩
  | .connectionError =>
    ⟨msgs, _fallback_response user_input,
     [dbg1, dbg2, Event.errorEv (chars "Cannot connect to Ollama - is it running?")]⟩
  | .otherFailure m =>
    ⟨msgs, _fallback_response user_input,
     [dbg1, dbg2, Event.errorEv (chars "LLM response failed: " ++ m)]⟩
  | .httpResponse status content =>
    let dbg3 := Event.debugEv (chars "Ollama responded: " ++ (toString status).data)
    if status = 200 then
      let c := pyStrip content
      let dbg4 := Event.debugEv (chars "LLM content: \x27" ++ c.take 100 ++ chars "\x27")
      if c = [] then
        ⟨msgs, _fallback_response user_input, [dbg1, dbg2, dbg3, dbg4]⟩
      else
        let p := parse_dual_output c
        let evInstr :=
          if p.2 ≠ [] then [Event.instructionDetected p.2] else []
        ⟨msgs, if p.1 ≠ [] then p.1 else _fallback_response user_input,
         [dbg1, dbg2, dbg3, dbg4] ++ evInstr⟩
    else
      ⟨msgs, _fallback_response user_input,
       [dbg1, dbg2, dbg3, Event.debugEv (chars "Non-200 response, using fallback")]⟩

/-- The degraded outcomes named by the spec: network timeout, connection
error, non-success HTTP status, or an empty content field. -/
def degradedOutcome (llm : LLMResult) : Prop :=
  llm = .timeout ∨ llm = .connectionError ∨
    (∃ st c, llm = .httpResponse st c ∧ st ≠ 200) ∨
    (∃ c, llm = .httpResponse 200 c ∧ pyStrip c = [])

/-- The regex class `\w` (ASCII part), used by the word-boundary and
abbreviation patterns of `_format_for_tts`. -/
def isWordChar (c : Char) : Bool :=
  ('a' ≤ c && c ≤ 'z') || ('A' ≤ c && c ≤ 'Z') || ('0' ≤ c && c ≤ '9') || c = '_'

/-- A `\b` word boundary holds before a word character when the previous
character (if any) is not a word character. -/
def atWordBoundary : Option Char → Bool
  | none => true
  | some p => !isWordChar p

/-- One pass of `re.sub(r'\b<lit>', rep, text, flags=re.IGNORECASE)` for a
literal `lit` that starts with a letter and ends with a period: leftmost
non-overlapping matches, scanning resuming after each matched span.  `prev` is
the original character preceding the scan position (for the `\b` test); after
a match the preceding character is the final `.` of the matched span.  The
first argument is recursion fuel; every step consumes at least one character,
so fuel equal to the string length (as supplied by `subAbbrev`) never runs
out. -/
def subAbbrevF (lit rep : Str) : Nat → Option Char → Str → Str
  | 0, _, s => s
  | _ + 1, _, [] => []
  | fuel + 1, prev, c :: cs =>
    if atWordBoundary prev && startsWithCI (c :: cs) lit then
      rep ++ subAbbrevF lit rep fuel (some '.') (List.drop (lit.length - 1) cs)
    else
      c :: subAbbrevF lit rep fuel (some c) cs

/-- Entry point of the single-abbreviation substitution pass. -/
def subAbbrev (lit rep : Str) (prev : Option Char) (s : Str) : Str :=
  subAbbrevF lit rep s.length prev s

/-- One pass of `re.sub(r'(\w)\.(\w)', r'\1 \2', text)`. -/
def subWordDotWord : Str → Str
  | a :: '.' :: b :: rest =>
    if isWordChar a && isWordChar b then a :: ' ' :: b :: subWordDotWord rest
    else a :: subWordDotWord ('.' :: b :: rest)
  | a :: rest => a :: subWordDotWord rest
  | [] => []

/-- Dropping a prefix never lengthens a list (used for termination of the
scanners below). -/
theorem length_dropWhile_le {α : Type} (p : α → Bool) (l : List α) :
    (l.dropWhile p).length ≤ l.length := by
  induction l with
  | nil => simp [List.dropWhile]
  | cons a as ih =>
    by_cases h : p a = true
    · simp [List.dropWhile, h]
      omega
    · simp [List.dropWhile, h]

/-- One pass of `re.sub(r'(\w)\.\s+([a-z])', r'\1 \2', text)`: a word
character, a period, a maximal non-empty whitespace run, then a lowercase
letter; the whitespace run is replaced by a single space and scanning resumes
after the lowercase letter.  Fueled like `subAbbrevF`; every recursive call
shortens the string, so fuel equal to the string length never runs out. -/
def subWordDotSpaceLowerF : Nat → Str → Str
  | 0, s => s
  | _ + 1, [] => []
  | fuel + 1, a :: '.' :: rest =>
    if isWordChar a then
      match rest.dropWhile isPySpace with
      | b :: r3 =>
        if (rest.takeWhile isPySpace).isEmpty = false && 'a' ≤ b && b ≤ 'z' then
          a :: ' ' :: b :: subWordDotSpaceLowerF fuel r3
        else a :: subWordDotSpaceLowerF fuel ('.' :: rest)
      | [] => a :: subWordDotSpaceLowerF fuel ('.' :: rest)
    else a :: subWordDotSpaceLowerF fuel ('.' :: rest)
  | fuel + 1, a :: rest => a :: subWordDotSpaceLowerF fuel rest

/-- Entry point of the period-whitespace-lowercase substitution pass. -/
def subWordDotSpaceLower (s : Str) : Str := subWordDotSpaceLowerF s.length s

/-- One pass of `re.sub(r'\s+', ' ', text)`: every maximal whitespace run
becomes a single space.  The flag records whether the scanner is inside a
whitespace run whose first character was already emitted. -/
def collapseWSAux : Bool → Str → Str
  | _, [] => []
  | inWS, c :: cs =>
    if isPySpace c then
      if inWS then collapseWSAux true cs else ' ' :: collapseWSAux true cs
    else c :: collapseWSAux false cs

/-- Entry point of the whitespace-collapsing pass. -/
def collapseWS (s : Str) : Str := collapseWSAux false s

/-- The ordered abbreviation-replacement table of `_format_for_tts`
(voice_service.py:296-315); Python dicts preserve insertion order. -/
def tts_replacements : List (Str × Str) :=
  [ (chars "e.g.", chars "for example"), (chars "i.e.", chars "that is"),
    (chars "etc.", chars "et cetera"), (chars "vs.", chars "versus"),
    (chars "Mr.", chars "Mister"), (chars "Mrs.", chars "Missus"),
    (chars "Ms.", chars "Miss"), (chars "Dr.", chars "Doctor"),
    (chars "Prof.", chars "Professor"), (chars "Sr.", chars "Senior"),
    (chars "Jr.", chars "Junior"), (chars "No.", chars "Number"),
    (chars "St.", chars "Street"), (chars "Ave.", chars "Avenue"),
    (chars "Dept.", chars "Department"), (chars "Co.", chars "Company"),
    (chars "Inc.", chars "Incorporated"), (chars "Ltd.", chars "Limited") ]

/-- Embedding of `VoiceService._format_for_tts` (voice_service.py:290-335):
abbreviation replacements in table order, the two generic period-removal
passes, whitespace collapsing, and a final strip. -/
def _format_for_tts (text : Str) : Str :=
  let t := tts_replacements.foldl (fun acc p => subAbbrev p.1 p.2 none acc) text
  let t := subWordDotWord t
  let t := subWordDotSpaceLower t
  pyStrip (collapseWS t)

/-- The full-list reading loop of the `announce` handler
(voice_service.py:534-540, 559-565, 584-590):
`for i, item in enumerate(items)`, writing the bare item at index 0,
`, and item` at the last index, and `, item` in between. -/
def listReadFull (items : List Str) : Str :=
  (items.enum).foldl
    (fun acc p =>
      if p.1 = 0 then acc ++ p.2
      else if p.1 = items.length - 1 then acc ++ chars ", and " ++ p.2
      else acc ++ chars ", " ++ p.2)
    []

/-- The truncating loop `for i in range(3)` of the `announce` handler
(voice_service.py:544-550, 569-575), which reads exactly the first three
items; it is only reached when the list has more than three items, so the
defaults are never used. -/
def listReadFirstThree (items : List Str) : Str :=
  items.getD 0 [] ++ chars ", " ++ items.getD 1 []
    ++ chars ", and " ++ items.getD 2 []

/-- Text appended for the `changes` list (voice_service.py:530-552). -/
def changesFragment (changes : List Str) : Str :=
  if changes = [] then []
  else if changes.length ≤ 3 then chars ". " ++ listReadFull changes
  else
    chars ". " ++ listReadFirstThree changes
      ++ chars ", and " ++ (toString (changes.length - 3)).data
      ++ chars " more change"
      ++ (if changes.length - 3 > 1 then chars "s" else [])

/-- Text appended for the `notes` list (voice_service.py:555-577). -/
def notesFragment (notes : List Str) : Str :=
  if notes = [] then []
  else if notes.length ≤ 4 then chars ". " ++ listReadFull notes
  else
    chars ". " ++ listReadFirstThree notes
      ++ chars ". There are " ++ (toString (notes.length - 3)).data
      ++ chars " more important things that need further investigation"

/-- Text appended for the `risks` list (voice_service.py:580-593). -/
def risksFragment (risks : List Str) : Str :=
  if risks = [] then []
  else if risks.length ≤ 2 then chars ". However, " ++ listReadFull risks
  else
    chars ". Note: " ++ (toString risks.length).data
      ++ chars " potential risks to be aware of"

/-- Text appended for the `next_questions` list (voice_service.py:596-602). -/
def questionsFragment (qs : List Str) : Str :=
  if qs = [] then []
  else
    chars ". " ++
      (qs.enum).foldl
        (fun acc p =>
          if p.1 = 0 then acc ++ p.2 else acc ++ chars " Also, " ++ p.2)
        []

/-- The announcement text assembled by the `announce` command handler
(voice_service.py:527-602), before the TTS cleanup pass. -/
def buildAnnouncement (text : Str) (changes notes risks qs : List Str) : Str :=
  text ++ changesFragment changes ++ notesFragment notes
    ++ risksFragment risks ++ questionsFragment qs

/-- The mutable fields of `VoiceService` shared between the main audio loop
and the command listener, together with the loop-local segmentation variables
of `process_audio_loop` (`recording`, `frames`, `silence_start`,
`speech_detected`).  A frame in the accumulator is represented by its
energy-gate classification (`true` = classified speech). -/
structure ServiceState where
  is_muted : Bool
  should_stop : Bool
  conversation_turns : List Rec
  last_activity_time : Time
  current_voice : Str
  recording : Bool
  frames : List Bool
  silence_start : Option Time
  speech_detected : Bool
deriving DecidableEq, Repr

/-- The state at service start (voice_service.py:73-86, 401-404), with
`time.time()` at construction taken as the time origin. -/
def initState : ServiceState :=
  { is_muted := false, should_stop := false, conversation_turns := [],
    last_activity_time := 0, current_voice := chars "af_bella",
    recording := false, frames := [], silence_start := none,
    speech_detected := false }

/-- An inbound command after JSON decoding, one constructor per `command`
value `handle_command` distinguishes; payload fields carry the
`command.get(...)` defaults already applied (`voice` defaults to `af_bella`,
`text` to `Task completed`, the lists to `[]`).  `unknown` carries the
display form of any other `command` value. -/
inductive Command where
  | mute
  | unmute
  | reset_context
  | change_voice (voice : Str)
  | shutdown
  | announce (text : Str) (changes notes risks next_questions : List Str)
  | unknown (cmd : Str)
deriving DecidableEq, Repr

/-- Embedding of `VoiceService.handle_command` (voice_service.py:493-614),
run at time `now`.  Returns the new state, the messages sent, and the texts
handed to the TTS engine. -/
def handle_command (s : ServiceState) (now : Time) (c : Command) :
    ServiceState × List Event × List Str :=
  match c with
  | .mute => ({ s with is_muted := true }, [Event.mutedEv], [])
  | .unmute => ({ s with is_muted := false }, [Event.unmutedEv], [])
  | .reset_context =>
    ({ s with conversation_turns := [], last_activity_time := now },
     [Event.debugEv (chars "Conversation context manually reset")], [])
  | .change_voice v =>
    ({ s with current_voice := v },
     [Event.debugEv (chars "Voice changed to: " ++ v)], [])
  | .shutdown => ({ s with should_stop := true }, [], [])
  | .announce text changes notes risks qs =>
    let s1 := { s with last_activity_time := now }
    let ann := _format_for_tts (buildAnnouncement text changes notes risks qs)
    let a := add_conversation_turn s1.conversation_turns (chars "assistant") ann now
    ({ s1 with conversation_turns := a.1, last_activity_time := a.2 },
     [Event.debugEv (chars "Announcing: " ++ ann), Event.jarvisSpeaking ann],
     [ann])
  | .unknown cmd =>
    (s, [Event.errorEv (chars "Unknown command: " ++ cmd)], [])

/-- One line arriving on stdin in `listen_for_commands`: an empty read
(falsy line, skipped), a line that `json.loads` rejects, or a decoded
command object. -/
inductive LineInput where
  | emptyRead
  | malformed
  | decoded (c : Command)
deriving DecidableEq, Repr

/-- Aggregated output of the command-listener loop. -/
structure ListenOut where
  state : ServiceState
  events : List Event
  spoken : List Str
deriving DecidableEq, Repr

/-- One iteration of `listen_for_commands` (voice_service.py:616-629): an
empty read does nothing, a line that fails JSON decoding produces a single
error message and touches nothing else, and a decoded command is handled by
`handle_command`. -/
def listener_step (s : ServiceState) (now : Time) (line : LineInput) :
    ServiceState × List Event × List Str :=
  match line with
  | .emptyRead => (s, [], [])
  | .malformed => (s, [Event.errorEv (chars "Invalid JSON command received")], [])
  | .decoded c => handle_command s now c

/-- The listener loop `while not self.should_stop` over a list of timed
inbound lines. -/
def run_listener (s : ServiceState) : List (Time × LineInput) → ListenOut
  | [] => ⟨s, [], []⟩
  | (now, line) :: rest =>
    if s.should_stop then ⟨s, [], []⟩
    else
      let o := listener_step s now line
      let r := run_listener o.1 rest
      ⟨r.state, o.2.1 ++ r.events, o.2.2 ++ r.spoken⟩

/-- `SILENCE_THRESHOLD = 400` (voice_service.py:407).  The source compares the
chunk's mean-absolute energy against this integer threshold; the model carries
each frame's energy as an integer, which preserves the comparison. -/
def SILENCE_THRESHOLD : ℤ := 400

/-- `SILENCE_DURATION = 1.0` seconds (voice_service.py:408), in the model's
millisecond time unit. -/
def SILENCE_DURATION : Time := 1000

/-- `MIN_SPEECH_DURATION = 0.5` seconds (voice_service.py:409), in the
model's millisecond time unit. -/
def MIN_SPEECH_DURATION : Time := 500

/-- `CHUNK_SIZE = 1024` samples (voice_service.py:410). -/
def CHUNK_SIZE : ℤ := 1024

/-- `self.sample_rate = 16000` (voice_service.py:77). -/
def sample_rate : ℤ := 16000

/-- `int(MIN_SPEECH_DURATION * self.sample_rate / CHUNK_SIZE)`
(voice_service.py:448): `0.5 * 16000 / 1024 = 7.8125`, truncated by `int()`
to `7`; with the millisecond unit this is an exact integer computation. -/
def minTurnFrames : ℤ := MIN_SPEECH_DURATION * sample_rate / 1000 / CHUNK_SIZE

/-- External inputs consumed by one iteration of `process_audio_loop`: the
wall-clock time of the iteration, the energy of the chunk read from the
microphone, the transcript Whisper would return for the accumulated buffer if
transcription happens this iteration, and the outcome the Ollama endpoint
would produce if the LLM is called this iteration. -/
structure FrameInput where
  time : Time
  energy : ℤ
  transcript : Str
  llm : LLMResult
deriving DecidableEq, Repr

/-- Output of one main-loop iteration: the new state, the messages sent, the
audio buffers handed to the transcriber (each one a completed Turn, identified
by the classification tags of its frames), the message lists of attempted LLM
requests, and the texts handed to the TTS engine. -/
structure StepOut where
  state : ServiceState
  events : List Event
  turns : List (List Bool)
  requests : List (List Rec)
  spoken : List Str
deriving DecidableEq, Repr

/-- Resetting the segmentation accumulator (voice_service.py:485-488). -/
def resetSeg (s : ServiceState) : ServiceState :=
  { s with recording := false, frames := [], silence_start := none,
           speech_detected := false }

/-- The body of the silence-timeout branch (voice_service.py:447-488), entered
with the current silence frame already appended to `s.frames`.  The buffer is
transcribed only when speech was detected and the total accumulated frame
count exceeds `minTurnFrames`; a transcript containing `goodbye` or `exit`
(case-insensitively) speaks a fixed farewell, sets the stop flag and breaks
out of the loop without resetting the accumulator; otherwise the user turn is
recorded, a response is generated and spoken, and the accumulator is reset. -/
def finalizeTurn (s : ServiceState) (inp : FrameInput) : StepOut :=
  if s.speech_detected = true ∧ (s.frames.length : ℤ) > minTurnFrames then
    let t := inp.transcript
    if t ≠ [] then
      if containsSub (lowerChars t) (chars "goodbye") = true
          ∨ containsSub (lowerChars t) (chars "exit") = true then
        ⟨{ s with should_stop := true },
         [Event.transcriptionEv t, Event.jarvisSpeaking (chars "Goodbye!")],
         [s.frames], [], [chars "Goodbye!"]⟩
      else
        let a := add_conversation_turn s.conversation_turns (chars "user") t inp.time
        let s1 := { s with conversation_turns := a.1, last_activity_time := a.2 }
        let g := generate_fast_response s1.conversation_turns t inp.llm
        if g.answer ≠ [] then
          let a2 := add_conversation_turn s1.conversation_turns (chars "assistant")
                      g.answer inp.time
          ⟨resetSeg { s1 with conversation_turns := a2.1, last_activity_time := a2.2 },
           [Event.transcriptionEv t] ++ g.events
             ++ [Event.jarvisSpeaking g.answer,
                 Event.conversationTurn t g.answer, Event.listeningEv],
           [s.frames], [g.request], [g.answer]⟩
        else
          ⟨resetSeg s1, [Event.transcriptionEv t] ++ g.events,
           [s.frames], [g.request], []⟩
    else ⟨resetSeg s, [], [s.frames], [], []⟩
  else ⟨resetSeg s, [], [], [], []⟩

/-- The energy-gate part of one loop iteration (voice_service.py:430-488):
speech frames start or extend a recording and clear the silence timer; silence
frames while recording are appended, start the timer, and finalize the turn
once `SILENCE_DURATION` has elapsed; silence while idle does nothing. -/
def vadStep (s : ServiceState) (inp : FrameInput) : StepOut :=
  if inp.energy > SILENCE_THRESHOLD then
    let r :=
      if s.recording = false then
        ({ s with recording := true, speech_detected := true },
         [Event.userSpeaking])
      else (s, [])
    ⟨{ r.1 with frames := r.1.frames ++ [true], silence_start := none },
     r.2, [], [], []⟩
  else if s.recording = true then
    let ss := s.silence_start.getD inp.time
    let s1 := { s with silence_start := some ss, frames := s.frames ++ [false] }
    if inp.time - ss ≥ SILENCE_DURATION then finalizeTurn s1 inp
    else ⟨s1, [], [], [], []⟩
  else ⟨s, [], [], [], []⟩

/-- One iteration of `process_audio_loop` (voice_service.py:415-488): the
context-timeout check runs first; a muted iteration only sleeps; otherwise a
chunk is read and classified. -/
def loopStep (s : ServiceState) (inp : FrameInput) : StepOut :=
  let c := check_context_timeout s.conversation_turns s.last_activity_time inp.time
  let s1 := { s with conversation_turns := c.conversation_turns,
                     last_activity_time := c.last_activity_time }
  if s1.is_muted = true then ⟨s1, c.events, [], [], []⟩
  else
    let r := vadStep s1 inp
    ⟨r.state, c.events ++ r.events, r.turns, r.requests, r.spoken⟩

/-- `while not self.should_stop` over a list of frame inputs; a stop flag set
inside an iteration (the `break` on a farewell) discards the remaining
input. -/
def runLoop (s : ServiceState) : List FrameInput → StepOut
  | [] => ⟨s, [], [], [], []⟩
  | inp :: rest =>
    if s.should_stop = true then ⟨s, [], [], [], []⟩
    else
      let o := loopStep s inp
      let r := runLoop o.state rest
      ⟨r.state, o.events ++ r.events, o.turns ++ r.turns,
       o.requests ++ r.requests, o.spoken ++ r.spoken⟩

/-- A synthetic frame input `k` chunks into a run: 1024 samples at 16 kHz
last 64 ms, so chunk `k` is read at `64 k` ms.  The transcript is what the
STT engine would return if this iteration finalizes a turn; the LLM outcome
is immaterial for traces that never reach the LLM. -/
def mkFrame (k : Nat) (e : ℤ) (t : Str) : FrameInput :=
  ⟨(k : ℤ) * 64, e, t, LLMResult.timeout⟩

/-- A single speech-classified chunk (a cough) followed by silence until the
silence timeout fires: the timer starts at chunk 1 and 1000 ms have elapsed
at chunk 17. -/
def c3Trace : List FrameInput :=
  (List.range 18).map fun k => mkFrame k (if k = 0 then 500 else 0) []

/-- The spec's synthetic resume-after-silence sequence: 20 speech chunks,
5 silence chunks (320 ms, below the timeout), 20 more speech chunks, then
silence until the timeout fires (17 trailing silence chunks). -/
def c4Trace : List FrameInput :=
  (List.range 62).map fun k =>
    mkFrame k
      (if k < 20 then 500 else if k < 25 then 0 else if k < 45 then 500 else 0)
      []

/-- One speech chunk, then silence until the timeout fires, transcribed as
`hello there`; the LLM call times out, which still records the attempted
request. -/
def c8Trace : List FrameInput :=
  (List.range 18).map fun k =>
    mkFrame k (if k = 0 then 500 else 0) (chars "hello there")

/-- Folding a call sequence into an initially empty history, used to state
properties of arbitrary `add_conversation_turn` sequences. -/
def applyTurns (calls : List (Str × Str × Time)) : List Rec × Time :=
  calls.foldl (fun st c => add_conversation_turn st.1 c.1 c.2.1 c.2.2) ([], 0)

/-! ## Helper lemmas -/

/-- One `add_conversation_turn` call preserves the length bound. -/
theorem add_turn_length_le (turns : List Rec) (r c : Str) (t : Time)
    (h : turns.length ≤ max_turns) :
    ((add_conversation_turn turns r c t).1).length ≤ max_turns := by
  unfold add_conversation_turn
  dsimp only
  split
  · rename_i hgt
    simp only [List.length_drop, List.length_append, List.length_cons,
      List.length_nil] at hgt ⊢
    omega
  · rename_i hle
    simp only [List.length_append, List.length_cons, List.length_nil] at hle ⊢
    omega

/-- The record list after `add_conversation_turn` always ends with the record
just appended. -/
theorem add_turn_eq_concat (T : List Rec) (r c : Str) (n : Time) :
    ∃ W, (add_conversation_turn T r c n).1 = W ++ [⟨r, c⟩] := by
  unfold add_conversation_turn
  dsimp only
  split
  · rename_i h
    simp [max_turns] at h
    refine ⟨T.drop 1, ?_⟩
    rw [List.drop_append_of_le_length (by omega)]
  · exact ⟨T, rfl⟩

/-- `takeLast8` of a list ending in `u` still ends in `u`. -/
theorem takeLast8_concat (W : List Rec) (u : Rec) :
    takeLast8 (W ++ [u]) = W.drop ((W.length + 1) - 8) ++ [u] := by
  unfold takeLast8
  rw [List.length_append]
  simp only [List.length_cons, List.length_nil, Nat.zero_add]
  rw [List.drop_append_of_le_length (by omega)]

/-- The fallback responder never returns an empty string, for any input. -/
theorem fallback_ne_nil (input : Str) : _fallback_response input ≠ [] := by
  unfold _fallback_response
  dsimp only
  split
  · decide
  · split
    · decide
    · split
      · decide
      · decide

/-- A loop whose stop flag is set consumes no input. -/
theorem runLoop_stopped (s : ServiceState) (l : List FrameInput)
    (h : s.should_stop = true) : runLoop s l = ⟨s, [], [], [], []⟩ := by
  cases l with
  | nil => rfl
  | cons a as => simp [runLoop, h]

/-- An unmuted iteration without a context reset, receiving a silence frame
while recording with the silence timeout elapsed, reduces to the finalization
body applied to the state with the silence frame appended. -/
theorem loopStep_silence_timeout (s : ServiceState) (inp : FrameInput)
    (hctx : ¬(s.conversation_turns ≠ [] ∧
        inp.time - s.last_activity_time > context_timeout))
    (hm : s.is_muted = false)
    (he : ¬(inp.energy > SILENCE_THRESHOLD))
    (hr : s.recording = true)
    (hel : inp.time - s.silence_start.getD inp.time ≥ SILENCE_DURATION) :
    loopStep s inp
      = finalizeTurn
          { s with silence_start := some (s.silence_start.getD inp.time),
                   frames := s.frames ++ [false] } inp := by
  simp [loopStep, check_context_timeout, hctx, hm, vadStep, he, hr, hel]

/-- The message list of the attempted request is the same in every branch of
`generate_fast_response`. -/
theorem gen_request (turns : List Rec) (input : Str) (llm : LLMResult) :
    (generate_fast_response turns input llm).request = buildMessages turns input := by
  cases llm with
  | timeout => rfl
  | connectionError => rfl
  | otherFailure m => rfl
  | httpResponse st c =>
    simp only [generate_fast_response]
    split
    · split
      · rfl
      · rfl
    · rfl

/-! ## Claim theorems -/

/-- C1, counterexample: the input `[INSTRUCTION]` contains an
`[INSTRUCTION]` marker and no `[ANSWER]` marker, yet the parser returns the
whole text as the answer (non-empty) and an empty instruction — refuting the
claim that every such input yields an empty answer and a present
instruction. -/
theorem C1_counterexample :
    findMarker ANSWER_MARK (chars "[INSTRUCTION]") = none
  ∧ findMarker INSTRUCTION_MARK (chars "[INSTRUCTION]") = some 0
  ∧ (parse_dual_output (chars "[INSTRUCTION]")).1 = chars "[INSTRUCTION]"
  ∧ (parse_dual_output (chars "[INSTRUCTION]")).2 = [] := by decide

/-- C1, amended: the parser maps the spec's example to
`(answer: Hi there., instruction: Create a file)`; an input containing
neither marker (case-insensitively) parses to the whole stripped input as
answer with no instruction; and an input containing an `[INSTRUCTION]`
marker, no `[ANSWER]` marker, and non-whitespace text after the first
`[INSTRUCTION]` marker parses to an empty answer and that non-empty text as
the instruction. -/
theorem C1_parser_contract :
    parse_dual_output (chars "[ANSWER] Hi there. [INSTRUCTION] Create a file")
      = (chars "Hi there.", chars "Create a file")
  ∧ (∀ content : Str, findMarker ANSWER_MARK content = none →
      findMarker INSTRUCTION_MARK content = none →
      parse_dual_output content = (pyStrip content, []))
  ∧ (∀ (content : Str) (i : Nat), findMarker ANSWER_MARK content = none →
      findMarker INSTRUCTION_MARK content = some i →
      pyStrip (content.drop (i + INSTRUCTION_MARK.length)) ≠ [] →
      parse_dual_output content
        = ([], pyStrip (content.drop (i + INSTRUCTION_MARK.length)))) := by
  refine ⟨by decide, ?_, ?_⟩
  · intro content h1 h2
    simp [parse_dual_output, h1, h2]
  · intro content i h1 h2 h3
    simp [parse_dual_output, h1, h2, h3]

/-- C1, witness for the amended theorem's quantified parts at concrete
inputs. -/
theorem C1_witness :
    parse_dual_output (chars "no markers here") = (chars "no markers here", [])
  ∧ parse_dual_output (chars "[INSTRUCTION] Deploy the app")
      = ([], chars "Deploy the app") := by
  constructor
  · exact C1_parser_contract.2.1 (chars "no markers here") (by decide) (by decide)
  · have h := C1_parser_contract.2.2 (chars "[INSTRUCTION] Deploy the app") 0
      (by decide) (by decide) (by decide)
    rw [h]
    decide

/-- C2: starting from an empty history, the stored record count never exceeds
`max_turns` after any prefix of any `add_conversation_turn` call sequence;
and from any state within the bound, a call appends the new record and, only
when the history is full, evicts exactly the oldest record, preserving the
order of the survivors. -/
theorem C2_context_bounded_fifo :
    (∀ (calls : List (Str × Str × Time)) (n : Nat),
        ((applyTurns (calls.take n)).1).length ≤ max_turns)
  ∧ (∀ (turns : List Rec) (r c : Str) (t : Time), turns.length ≤ max_turns →
        (add_conversation_turn turns r c t).1 =
          if turns.length < max_turns then turns ++ [⟨r, c⟩]
          else turns.drop 1 ++ [⟨r, c⟩]) := by
  constructor
  · have key : ∀ (l : List (Str × Str × Time)) (st : List Rec × Time),
        st.1.length ≤ max_turns →
        ((l.foldl (fun st c => add_conversation_turn st.1 c.1 c.2.1 c.2.2) st).1).length
          ≤ max_turns := by
      intro l
      induction l with
      | nil => intro st h; exact h
      | cons a as ih => intro st h; exact ih _ (add_turn_length_le _ _ _ _ h)
    intro calls n
    exact key _ ([], 0) (by simp [max_turns])
  · intro turns r c t h
    unfold add_conversation_turn
    dsimp only
    by_cases hlt : turns.length < max_turns
    · rw [if_pos hlt, if_neg]
      simp only [List.length_append, List.length_cons, List.length_nil]
      omega
    · rw [if_neg hlt, if_pos]
      · rw [List.drop_append_of_le_length (by simp [max_turns] at h hlt; omega)]
      · simp only [List.length_append, List.length_cons, List.length_nil]
        omega

/-- C2, witness: ten calls on an initially empty history stay within the
bound, and a call on a full history of eight records evicts the head. -/
theorem C2_witness :
    ((applyTurns ((List.replicate 10 (chars "user", chars "x", (0 : Time))).take 10)).1).length
      ≤ max_turns
  ∧ (add_conversation_turn (List.replicate 8 (⟨chars "u", chars "m"⟩ : Rec))
        (chars "user") (chars "y") 5).1
      = if (List.replicate 8 (⟨chars "u", chars "m"⟩ : Rec)).length < max_turns
        then List.replicate 8 (⟨chars "u", chars "m"⟩ : Rec) ++ [⟨chars "user", chars "y"⟩]
        else (List.replicate 8 (⟨chars "u", chars "m"⟩ : Rec)).drop 1
          ++ [⟨chars "user", chars "y"⟩] :=
  ⟨C2_context_bounded_fifo.1 (List.replicate 10 (chars "user", chars "x", (0 : Time))) 10,
   C2_context_bounded_fifo.2 _ _ _ _ (by decide)⟩

/-- C5, counterexample: the method returns `None` whether or not it resets
(its body has no `return` statement), so the returned value does not indicate
whether a reset occurred: a resetting call and a non-resetting call return
the same value. -/
theorem C5_counterexample :
    (check_context_timeout [⟨chars "user", chars "hi"⟩] 0 200000).ret
      = (check_context_timeout [⟨chars "user", chars "hi"⟩] 0 50000).ret
  ∧ (check_context_timeout [⟨chars "user", chars "hi"⟩] 0 200000).conversation_turns = []
  ∧ (check_context_timeout [⟨chars "user", chars "hi"⟩] 0 50000).conversation_turns
      = [⟨chars "user", chars "hi"⟩] := by decide

/-- C5, amended: `check_context_timeout` is a no-op whenever
`now - last_activity_time` does not exceed `context_timeout` (in particular
whenever `now` is before `last_activity_time + context_timeout`); with a
non-empty history and the timeout exceeded it clears the history, resets the
timestamp and emits a debug message; and it returns no value (`None`), the
same for every call. -/
theorem C5_check_timeout_contract :
    (∀ (turns : List Rec) (last now : Time), ¬(now - last > context_timeout) →
        check_context_timeout turns last now = ⟨turns, last, [], ()⟩)
  ∧ (∀ (turns : List Rec) (last now : Time), turns ≠ [] →
        now - last > context_timeout →
        check_context_timeout turns last now
          = ⟨[], now,
             [Event.debugEv (chars "Auto-resetting context after 2 minutes of inactivity")],
             ()⟩)
  ∧ (∀ (t1 : List Rec) (l1 n1 : Time) (t2 : List Rec) (l2 n2 : Time),
        (check_context_timeout t1 l1 n1).ret = (check_context_timeout t2 l2 n2).ret) := by
  refine ⟨?_, ?_, fun _ _ _ _ _ _ => rfl⟩
  · intro turns last now h
    unfold check_context_timeout
    rw [if_neg (fun hc => h hc.2)]
  · intro turns last now h1 h2
    unfold check_context_timeout
    rw [if_pos ⟨h1, h2⟩]

/-- C5, witness: a call 100 s after activity is a no-op; a call 130 s after
activity on a non-empty history clears it. -/
theorem C5_witness :
    check_context_timeout [⟨chars "a", chars "b"⟩] 0 100000
      = ⟨[⟨chars "a", chars "b"⟩], 0, [], ()⟩
  ∧ check_context_timeout [⟨chars "a", chars "b"⟩] 0 130001
      = ⟨[], 130001,
         [Event.debugEv (chars "Auto-resetting context after 2 minutes of inactivity")],
         ()⟩ :=
  ⟨C5_check_timeout_contract.1 _ _ _ (by decide),
   C5_check_timeout_contract.2.1 _ _ _ (by decide) (by decide)⟩

/-- C6: every degraded LLM outcome (timeout, connection error, non-200
status, empty content) makes `generate_fast_response` return exactly the
fallback response; the fallback responder returns a non-empty string for
every non-empty input; and the generated answer is non-empty for every
outcome whatsoever. -/
theorem C6_generate_always_speaks :
    (∀ (turns : List Rec) (input : Str) (llm : LLMResult), degradedOutcome llm →
        (generate_fast_response turns input llm).answer = _fallback_response input)
  ∧ (∀ input : Str, input ≠ [] → _fallback_response input ≠ [])
  ∧ (∀ (turns : List Rec) (input : Str) (llm : LLMResult),
        (generate_fast_response turns input llm).answer ≠ []) := by
  refine ⟨?_, fun input _ => fallback_ne_nil input, ?_⟩
  · rintro turns input llm (rfl | rfl | ⟨st, c, rfl, hst⟩ | ⟨c, rfl, hc⟩)
    · rfl
    · rfl
    · simp [generate_fast_response, hst]
    · simp [generate_fast_response, hc]
  · intro turns input llm
    cases llm with
    | timeout => exact fallback_ne_nil input
    | connectionError => exact fallback_ne_nil input
    | otherFailure m => exact fallback_ne_nil input
    | httpResponse st c =>
      by_cases hst : st = 200
      · subst hst
        simp only [generate_fast_response]
        by_cases hc : pyStrip c = []
        · simp [hc, fallback_ne_nil]
        · simp only [hc, if_neg, if_false, reduceIte]
          by_cases ha : (parse_dual_output (pyStrip c)).1 ≠ []
          · simp [ha]
          · simp [ha, fallback_ne_nil]
      · simp [generate_fast_response, hst, fallback_ne_nil]

/-- C6, witness: a timed-out call degrades to the fallback, which is
non-empty for a concrete non-empty input. -/
theorem C6_witness :
    (generate_fast_response [] (chars "deploy") LLMResult.timeout).answer
      = _fallback_response (chars "deploy")
  ∧ _fallback_response (chars "do it") ≠ [] :=
  ⟨C6_generate_always_speaks.1 [] (chars "deploy") LLMResult.timeout (Or.inl rfl),
   C6_generate_always_speaks.2.1 (chars "do it") (by decide)⟩

/-- C7, counterexample: with four changes the announcement reads
`a, b, and c, and 1 more change` — the first three items plus a remainder of
one — not `a, b, and 2 more changes` as claimed. -/
theorem C7_counterexample :
    containsSub
        (buildAnnouncement (chars "Task completed")
          [chars "a", chars "b", chars "c", chars "d"] [] [] [])
        (chars "a, b, and 2 more changes") = false
  ∧ changesFragment [chars "a", chars "b", chars "c", chars "d"]
      = chars ". a, b, and c, and 1 more change" := by decide

/-- C7, amended: announce formatting is deterministic text formatting; with
changes `a,b,c,d` the announcement reads `a, b, and c, and 1 more change`
(first three items plus remainder count); with changes `a,b` it reads
`a, and b`; with 3 risks it reads `Note: 3 potential risks to be aware of`;
lists of at most 3 changes / 4 notes / 2 risks are read in full with `and`
before the last item; longer change and note lists are truncated to the
first 3 with a stated remainder count, and longer risk lists are replaced by
their count. -/
theorem C7_announce_formatting :
    buildAnnouncement (chars "Task completed")
        [chars "a", chars "b", chars "c", chars "d"] [] [] []
      = chars "Task completed. a, b, and c, and 1 more change"
  ∧ (∀ a b : Str, changesFragment [a, b] = chars ". " ++ a ++ chars ", and " ++ b)
  ∧ risksFragment [chars "r1", chars "r2", chars "r3"]
      = chars ". Note: 3 potential risks to be aware of"
  ∧ (∀ a : Str, changesFragment [a] = chars ". " ++ a)
  ∧ (∀ a b c : Str, changesFragment [a, b, c]
      = chars ". " ++ a ++ chars ", " ++ b ++ chars ", and " ++ c)
  ∧ (∀ (a b c d : Str) (rest : List Str),
      changesFragment (a :: b :: c :: d :: rest)
        = chars ". " ++ a ++ chars ", " ++ b ++ chars ", and " ++ c
          ++ chars ", and " ++ (toString (rest.length + 1)).data
          ++ chars " more change"
          ++ (if rest.length + 1 > 1 then chars "s" else []))
  ∧ (∀ a : Str, notesFragment [a] = chars ". " ++ a)
  ∧ (∀ a b : Str, notesFragment [a, b] = chars ". " ++ a ++ chars ", and " ++ b)
  ∧ (∀ a b c : Str, notesFragment [a, b, c]
      = chars ". " ++ a ++ chars ", " ++ b ++ chars ", and " ++ c)
  ∧ (∀ a b c d : Str, notesFragment [a, b, c, d]
      = chars ". " ++ a ++ chars ", " ++ b ++ chars ", " ++ c ++ chars ", and " ++ d)
  ∧ (∀ (a b c d e : Str) (rest : List Str),
      notesFragment (a :: b :: c :: d :: e :: rest)
        = chars ". " ++ a ++ chars ", " ++ b ++ chars ", and " ++ c
          ++ chars ". There are " ++ (toString (rest.length + 2)).data
          ++ chars " more important things that need further investigation")
  ∧ (∀ a : Str, risksFragment [a] = chars ". However, " ++ a)
  ∧ (∀ a b : Str, risksFragment [a, b]
      = chars ". However, " ++ a ++ chars ", and " ++ b)
  ∧ (∀ (a b c : Str) (rest : List Str),
      risksFragment (a :: b :: c :: rest)
        = chars ". Note: " ++ (toString (rest.length + 3)).data
          ++ chars " potential risks to be aware of") := by
  refine ⟨by decide, ?_, by decide, ?_, ?_, ?_, ?_, ?_, ?_, ?_, ?_, ?_, ?_, ?_⟩
  · intro a b
    simp [changesFragment, listReadFull, List.enum, List.enumFrom, chars,
      List.append_assoc]
  · intro a
    simp [changesFragment, listReadFull, List.enum, List.enumFrom, chars,
      List.append_assoc]
  · intro a b c
    simp [changesFragment, listReadFull, List.enum, List.enumFrom, chars,
      List.append_assoc]
  · intro a b c d rest
    have hne : (a :: b :: c :: d :: rest) ≠ ([] : List Str) := by simp
    have hlen : ¬((a :: b :: c :: d :: rest).length ≤ 3) := by
      simp only [List.length_cons]; omega
    have hcount : (a :: b :: c :: d :: rest).length - 3 = rest.length + 1 := by
      simp only [List.length_cons]; omega
    unfold changesFragment
    rw [if_neg hne, if_neg hlen, hcount]
    simp [listReadFirstThree, chars, List.append_assoc]
  · intro a
    simp [notesFragment, listReadFull, List.enum, List.enumFrom, chars,
      List.append_assoc]
  · intro a b
    simp [notesFragment, listReadFull, List.enum, List.enumFrom, chars,
      List.append_assoc]
  · intro a b c
    simp [notesFragment, listReadFull, List.enum, List.enumFrom, chars,
      List.append_assoc]
  · intro a b c d
    simp [notesFragment, listReadFull, List.enum, List.enumFrom, chars,
      List.append_assoc]
  · intro a b c d e rest
    have hne : (a :: b :: c :: d :: e :: rest) ≠ ([] : List Str) := by simp
    have hlen : ¬((a :: b :: c :: d :: e :: rest).length ≤ 4) := by
      simp only [List.length_cons]; omega
    have hcount : (a :: b :: c :: d :: e :: rest).length - 3 = rest.length + 2 := by
      simp only [List.length_cons]; omega
    unfold notesFragment
    rw [if_neg hne, if_neg hlen, hcount]
    simp [listReadFirstThree, chars, List.append_assoc]
  · intro a
    simp [risksFragment, listReadFull, List.enum, List.enumFrom, chars,
      List.append_assoc]
  · intro a b
    simp [risksFragment, listReadFull, List.enum, List.enumFrom, chars,
      List.append_assoc]
  · intro a b c rest
    have hne : (a :: b :: c :: rest) ≠ ([] : List Str) := by simp
    have hlen : ¬((a :: b :: c :: rest).length ≤ 2) := by
      simp only [List.length_cons]; omega
    unfold risksFragment
    rw [if_neg hne, if_neg hlen]
    have hc : (a :: b :: c :: rest).length = rest.length + 3 := by
      simp only [List.length_cons]
    rw [hc]

/-- C9: a line that fails JSON decoding makes the listener emit exactly one
error message, leaves the service state untouched, and the loop continues
with the remaining lines from the same state. -/
theorem C9_malformed_command_line (s : ServiceState) (now : Time)
    (rest : List (Time × LineInput)) (h : s.should_stop = false) :
    listener_step s now LineInput.malformed
      = (s, [Event.errorEv (chars "Invalid JSON command received")], [])
  ∧ run_listener s ((now, LineInput.malformed) :: rest)
      = ⟨(run_listener s rest).state,
         Event.errorEv (chars "Invalid JSON command received")
           :: (run_listener s rest).events,
         (run_listener s rest).spoken⟩ := by
  refine ⟨rfl, ?_⟩
  simp [run_listener, h, listener_step]

/-- C9, witness: the malformed-line step at a concrete state. -/
theorem C9_witness :
    run_listener initState [((0 : Time), LineInput.malformed)]
      = ⟨(run_listener initState []).state,
         Event.errorEv (chars "Invalid JSON command received")
           :: (run_listener initState []).events,
         (run_listener initState []).spoken⟩ :=
  (C9_malformed_command_line initState 0 [] rfl).2

/-- C3, counterexample: a single speech-classified chunk (64 ms of speech,
below `MIN_SPEECH_DURATION`) followed by trailing silence past the timeout
still emits a Turn downstream, because the minimum-length check counts the
retained trailing-silence frames (18 in total, above the 7-frame minimum) —
refuting the claim that such a turn is discarded with nothing emitted. -/
theorem C3_counterexample :
    (runLoop initState c3Trace).turns.map List.length = [18]
  ∧ ((runLoop initState c3Trace).turns.map fun t => (t.filter id).length) = [1]
  ∧ (1 : ℤ) * (CHUNK_SIZE * 1000 / sample_rate) < MIN_SPEECH_DURATION := by decide

/-- C3, amended: a turn whose TOTAL accumulated frame count — speech plus
retained silence frames — does not exceed
`int(MIN_SPEECH_DURATION * sample_rate / CHUNK_SIZE)` = 7 frames when the
silence timeout fires (or that contains no speech-classified frame) is
discarded silently: no Turn is handed downstream, no message is emitted, no
LLM request is made, nothing is spoken, and the segmentation accumulator is
reset. -/
theorem C3_short_turn_discarded (s : ServiceState) (inp : FrameInput)
    (hctx : ¬(s.conversation_turns ≠ [] ∧
        inp.time - s.last_activity_time > context_timeout))
    (hm : s.is_muted = false)
    (he : ¬(inp.energy > SILENCE_THRESHOLD))
    (hr : s.recording = true)
    (hel : inp.time - s.silence_start.getD inp.time ≥ SILENCE_DURATION)
    (hshort : ¬(s.speech_detected = true ∧ (s.frames.length : ℤ) + 1 > minTurnFrames)) :
    loopStep s inp
      = ⟨{ s with recording := false, frames := [], silence_start := none,
                  speech_detected := false }, [], [], [], []⟩ := by
  rw [loopStep_silence_timeout s inp hctx hm he hr hel]
  unfold finalizeTurn
  rw [if_neg (by
    push_cast
    simpa using hshort)]
  simp [resetSeg]

/-- C3, witness: a one-speech-frame turn (two frames total at the timeout) is
discarded silently at a concrete state and input. -/
theorem C3_witness :
    loopStep
        { initState with recording := true, speech_detected := true,
                         frames := [true], silence_start := some 64 }
        ⟨1100, 0, [], LLMResult.timeout⟩
      = ⟨initState, [], [], [], []⟩ :=
  C3_short_turn_discarded _ _ (by decide) rfl (by decide) rfl (by decide) (by decide)

set_option maxRecDepth 4000 in
/-- C4, counterexample: on the spec's synthetic sequence the segmenter does
emit exactly one Turn, but that Turn contains 62 frames, not 45: the 17
trailing-silence chunks appended while waiting out `SILENCE_DURATION` are
retained in the buffer. -/
theorem C4_counterexample :
    (runLoop initState c4Trace).turns.length = 1
  ∧ (runLoop initState c4Trace).turns.map List.length = [62]
  ∧ (runLoop initState c4Trace).turns.map List.length ≠ [45] := by decide

set_option maxRecDepth 4000 in
/-- C4, amended: on the synthetic sequence — 20 speech chunks, 5 silence
chunks below the timeout, 20 more speech chunks, then silence past the
timeout — the segmenter emits exactly one Turn (no split), consisting of the
45 speech and intra-turn silence frames followed by the 17 trailing-silence
frames appended before the timeout fired. -/
theorem C4_single_turn_no_split :
    (runLoop initState c4Trace).turns
      = [List.replicate 20 true ++ List.replicate 5 false
          ++ List.replicate 20 true ++ List.replicate 17 false] := by decide

/-- C8, counterexample: processing the transcript `hello there` from an empty
context, the single message list sent to the LLM contains the new user
message twice — once as the last context record (the caller stores the user
turn before generating) and once as the appended user message — refuting the
claim that it appears exactly once. -/
theorem C8_counterexample :
    (runLoop initState c8Trace).requests.map
        (fun r => r.count (⟨chars "user", chars "hello there"⟩ : Rec)) = [2] := by decide

/-- C8, amended: the message list of every LLM request made by the loop is
`[system prompt, last 8 context records, new user message]`; because the user
turn is added to the context before `generate_fast_response` is called, the
last context record is the new user message itself, so the list ends with the
new user message twice. -/
theorem C8_request_duplicates_user_message (s : ServiceState) (inp : FrameInput)
    (hctx : ¬(s.conversation_turns ≠ [] ∧
        inp.time - s.last_activity_time > context_timeout))
    (hm : s.is_muted = false)
    (he : ¬(inp.energy > SILENCE_THRESHOLD))
    (hr : s.recording = true)
    (hel : inp.time - s.silence_start.getD inp.time ≥ SILENCE_DURATION)
    (hsp : s.speech_detected = true)
    (hlen : (s.frames.length : ℤ) + 1 > minTurnFrames)
    (ht : inp.transcript ≠ [])
    (hbye1 : containsSub (lowerChars inp.transcript) (chars "goodbye") = false)
    (hbye2 : containsSub (lowerChars inp.transcript) (chars "exit") = false) :
    (loopStep s inp).requests
      = [⟨chars "system", system_prompt⟩ ::
          (takeLast8 (add_conversation_turn s.conversation_turns (chars "user")
              inp.transcript inp.time).1).dropLast
          ++ [⟨chars "user", inp.transcript⟩, ⟨chars "user", inp.transcript⟩]] := by
  rw [loopStep_silence_timeout s inp hctx hm he hr hel]
  unfold finalizeTurn
  rw [if_pos (by
    refine ⟨hsp, ?_⟩
    push_cast
    simpa using hlen)]
  rw [if_pos ht, if_neg (by simp [hbye1, hbye2])]
  dsimp only
  obtain ⟨W, hW⟩ := add_turn_eq_concat s.conversation_turns (chars "user")
    inp.transcript inp.time
  have hreq := gen_request
    (add_conversation_turn s.conversation_turns (chars "user")
      inp.transcript inp.time).1 inp.transcript inp.llm
  split
  · dsimp only
    rw [hreq]
    unfold buildMessages
    rw [hW, takeLast8_concat]
    simp [List.append_assoc]
  · dsimp only
    rw [hreq]
    unfold buildMessages
    rw [hW, takeLast8_concat]
    simp [List.append_assoc]

/-- C8, witness: the duplicated user message at a concrete state and
input. -/
theorem C8_witness :
    (loopStep
        { initState with recording := true, speech_detected := true,
                         frames := List.replicate 10 true, silence_start := some 0 }
        ⟨1100, 0, chars "hello there", LLMResult.timeout⟩).requests
      = [⟨chars "system", system_prompt⟩ ::
          (takeLast8 (add_conversation_turn [] (chars "user")
              (chars "hello there") 1100).1).dropLast
          ++ [⟨chars "user", chars "hello there"⟩, ⟨chars "user", chars "hello there"⟩]] :=
  C8_request_duplicates_user_message _ _ (by decide) rfl (by decide) rfl (by decide)
    rfl (by decide) (by decide) (by decide) (by decide)

/-- C10: a finalized turn whose non-empty transcript contains `goodbye` or
`exit` (case-insensitively, on the lowercased transcript) makes the loop emit
the transcription message followed by a `jarvis_speaking` message with the
fixed text `Goodbye!`, speak exactly that text, set the stop flag and process
no further input; the conversation history is not extended and no LLM request
is made.  This is in addition to the `shutdown` command, which also sets the
stop flag. -/
theorem C10_farewell_stops_loop (s : ServiceState) (inp : FrameInput)
    (rest : List FrameInput)
    (hstop : s.should_stop = false)
    (hctx : ¬(s.conversation_turns ≠ [] ∧
        inp.time - s.last_activity_time > context_timeout))
    (hm : s.is_muted = false)
    (he : ¬(inp.energy > SILENCE_THRESHOLD))
    (hr : s.recording = true)
    (hel : inp.time - s.silence_start.getD inp.time ≥ SILENCE_DURATION)
    (hsp : s.speech_detected = true)
    (hlen : (s.frames.length : ℤ) + 1 > minTurnFrames)
    (ht : inp.transcript ≠ [])
    (hbye : containsSub (lowerChars inp.transcript) (chars "goodbye") = true
        ∨ containsSub (lowerChars inp.transcript) (chars "exit") = true) :
    (runLoop s (inp :: rest)).events
        = [Event.transcriptionEv inp.transcript,
           Event.jarvisSpeaking (chars "Goodbye!")]
  ∧ (runLoop s (inp :: rest)).spoken = [chars "Goodbye!"]
  ∧ (runLoop s (inp :: rest)).state.should_stop = true
  ∧ (runLoop s (inp :: rest)).state.conversation_turns = s.conversation_turns
  ∧ (runLoop s (inp :: rest)).requests = []
  ∧ (handle_command s inp.time Command.shutdown).1.should_stop = true := by
  have hstep : loopStep s inp
      = ⟨{ s with silence_start := some (s.silence_start.getD inp.time),
                  frames := s.frames ++ [false], should_stop := true },
         [Event.transcriptionEv inp.transcript,
          Event.jarvisSpeaking (chars "Goodbye!")],
         [s.frames ++ [false]], [], [chars "Goodbye!"]⟩ := by
    rw [loopStep_silence_timeout s inp hctx hm he hr hel]
    unfold finalizeTurn
    rw [if_pos (by
      refine ⟨hsp, ?_⟩
      push_cast
      simpa using hlen)]
    rw [if_pos ht, if_pos hbye]
  have hrun : runLoop s (inp :: rest)
      = ⟨{ s with silence_start := some (s.silence_start.getD inp.time),
                  frames := s.frames ++ [false], should_stop := true },
         [Event.transcriptionEv inp.transcript,
          Event.jarvisSpeaking (chars "Goodbye!")],
         [s.frames ++ [false]], [], [chars "Goodbye!"]⟩ := by
    unfold runLoop
    rw [if_neg (by simp [hstop]), hstep]
    dsimp only
    rw [runLoop_stopped]
    · simp
    · rfl
  rw [hrun]
  exact ⟨rfl, rfl, rfl, rfl, rfl, rfl⟩

/-- C10, witness: a concrete farewell turn stops the loop with the expected
outputs even with further input pending. -/
theorem C10_witness :
    (runLoop
        { initState with recording := true, speech_detected := true,
                         frames := List.replicate 10 true, silence_start := some 0 }
        (⟨1100, 0, chars "Goodbye now", LLMResult.timeout⟩
          :: [⟨1200, 500, [], LLMResult.timeout⟩])).events
        = [Event.transcriptionEv (chars "Goodbye now"),
           Event.jarvisSpeaking (chars "Goodbye!")]
  ∧ (runLoop
        { initState with recording := true, speech_detected := true,
                         frames := List.replicate 10 true, silence_start := some 0 }
        (⟨1100, 0, chars "Goodbye now", LLMResult.timeout⟩
          :: [⟨1200, 500, [], LLMResult.timeout⟩])).requests = [] := by
  have h := C10_farewell_stops_loop
    { initState with recording := true, speech_detected := true,
                     frames := List.replicate 10 true, silence_start := some 0 }
    ⟨1100, 0, chars "Goodbye now", LLMResult.timeout⟩
    [⟨1200, 500, [], LLMResult.timeout⟩]
    rfl (by decide) rfl (by decide) rfl (by decide) rfl (by decide) (by decide)
    (Or.inl (by decide))
  exact ⟨h.1, h.2.2.2.2.1⟩

end Jarvis
